import Mathlib

/-!
Shallow embedding of the timer/session state machine of the opencapture
main process (src/main/index.ts): the module-level timer variables, the
IPC handlers start-timer, stop-timer, toggle-timer, toggle-pause-timer
and get-timer-state, the shared stopTimerLogic, and the record-line
formatting of stopTimerLogic.

Times are epoch milliseconds modelled as Int (JS numbers used only via
Date.now and subtraction).  The decomposition of an epoch instant into
local calendar fields (new Date(ms).getFullYear() etc.) is an environment
input, passed as a function msToDate : Int -> DateTime; msToDateUTC below
is one concrete such environment (the UTC decomposition) used to
instantiate theorems.  File-system side effects are modelled as the list
of (destination, line) pairs an operation appends through fs.appendFile;
the outcome of the vault resolution / write (which the code try/catches)
is an environment input WriteOutcome.  Tray-title updates and
window broadcasts are presentation effects outside the model.
-/

namespace OpenCapture

/-- The destination union type "Inbox" | "Daily Note" of the source. -/
inductive Dest where
  | inbox
  | dailyNote
deriving DecidableEq

/-- Outcome of the guarded write in stopTimerLogic: the code throws (and
catches) on a missing vault, a path escaping the vault, or a filesystem
error; only a successful attempt appends the line. -/
inductive WriteOutcome where
  | ok
  | noVault
  | outsideVault
  | fsError
deriving DecidableEq

/-- Whether the try-block of stopTimerLogic runs to completion. -/
def WriteOutcome.isOk : WriteOutcome → Bool
  | .ok => true
  | _ => false

/-- Local calendar fields of an instant, as read off a JS Date.  month is
stored 1-based, matching the getMonth() + 1 the formatting code computes. -/
structure DateTime where
  year : Nat
  month : Nat
  day : Nat
  hour : Nat
  minute : Nat
  second : Nat
deriving DecidableEq

/-- String(n).padStart(2, '0') for a natural number. -/
def pad2 (n : Nat) : String :=
  if n < 10 then "0" ++ toString n else toString n

/-- The YYYY-MM-DD HH:MM:SS rendering built inline in stopTimerLogic
(lines 374-375 of src/main/index.ts): the year unpadded via String(),
every other field through padStart(2, '0'). -/
def formatInstant (d : DateTime) : String :=
  toString d.year ++ "-" ++ pad2 d.month ++ "-" ++ pad2 d.day ++ " " ++
    pad2 d.hour ++ ":" ++ pad2 d.minute ++ ":" ++ pad2 d.second

/-- The appended record line of stopTimerLogic (line 376):
- startStr - endStr with a trailing newline. -/
def recordLine (startD endD : DateTime) : String :=
  "- " ++ formatInstant startD ++ " - " ++ formatInstant endD ++ "\n"

/-- One concrete environment for the epoch-to-calendar decomposition: the
UTC civil calendar (days algorithm of the proleptic Gregorian calendar). -/
def msToDateUTC (ms : Int) : DateTime :=
  let day := ms.ediv 86400000
  let msod := (ms.emod 86400000).toNat
  let z := day + 719468
  let era := z.ediv 146097
  let doe := (z - era * 146097).toNat
  let yoe := (doe - doe / 1460 + doe / 36524 - doe / 146096) / 365
  let doy := doe - (365 * yoe + yoe / 4 - yoe / 100)
  let mp := (5 * doy + 2) / 153
  let d := doy - (153 * mp + 2) / 5 + 1
  let m := if mp < 10 then mp + 3 else mp - 9
  let y : Int := (yoe : Int) + era * 400 + (if m ≤ 2 then 1 else 0)
  { year := y.toNat, month := m, day := d,
    hour := msod / 3600000, minute := msod % 3600000 / 60000,
    second := msod % 60000 / 1000 }

/-- The module-level mutable timer variables of src/main/index.ts
(lines 121-126).  timerInterval is modelled by whether the interval
handle is set (the tick callback itself only republishes state). -/
structure TimerState where
  timerInterval : Bool
  timerStart : Option Int
  timerDescription : String
  timerDestination : Option Dest
  timerPaused : Bool
  timerPausedElapsed : Int
deriving DecidableEq

/-- The variables at process launch: no interval, no start, empty
description, no destination, not paused, zero paused-elapsed. -/
def initialState : TimerState :=
  { timerInterval := false
    timerStart := none
    timerDescription := ""
    timerDestination := none
    timerPaused := false
    timerPausedElapsed := 0 }

/-- Result of one engine operation: the new variable values, the list of
(destination, line) pairs appended to output files, and the value
returned to the IPC caller. -/
structure StepOut (ρ : Type) where
  state : TimerState
  appended : List (Dest × String)
  ret : ρ
deriving DecidableEq

/-- the start-timer IPC handler (lines 448-468).  The ret Bool is the
running field of the returned object.  description || '' is the identity
on strings; if (destination) stores the destination only when provided
(both members of the union are truthy). -/
def startTimer (s : TimerState) (description : String) (destination : Option Dest)
    (now : Int) : StepOut Bool :=
  if s.timerInterval then
    { state := s, appended := [], ret := true }
  else
    let s := { s with timerDescription := description }
    let s :=
      match destination with
      | some d => { s with timerDestination := some d }
      | none => s
    let s :=
      if s.timerPaused then
        { s with timerStart := some (now - s.timerPausedElapsed)
                 timerPaused := false
                 timerPausedElapsed := 0 }
      else
        { s with timerStart := some now }
    { state := { s with timerInterval := true }, appended := [], ret := true }

/-- stopTimerLogic (lines 351-406): clear the interval, capture hadStart,
recordedDestination and recordedStart, null out timerStart,
timerDescription and timerDestination, then append the formatted record
line when hadStart, a destination and a recorded start are all present
and the guarded write succeeds; any write failure is caught and logged.
timerPaused and timerPausedElapsed are not touched here. -/
def stopTimerLogic (s : TimerState) (now : Int) (msToDate : Int → DateTime)
    (write : WriteOutcome) : StepOut Unit :=
  let appended :=
    match s.timerStart, s.timerDestination with
    | some recordedStart, some d =>
        if write.isOk then
          [(d, recordLine (msToDate recordedStart) (msToDate now))]
        else []
    | _, _ => []
  { state := { s with timerInterval := false
                      timerStart := none
                      timerDescription := ""
                      timerDestination := none }
    appended := appended
    ret := () }

/-- the stop-timer IPC handler (lines 470-476): clear the paused state,
run stopTimerLogic, return running := false. -/
def stopTimer (s : TimerState) (now : Int) (msToDate : Int → DateTime)
    (write : WriteOutcome) : StepOut Bool :=
  let s := { s with timerPaused := false, timerPausedElapsed := 0 }
  let r := stopTimerLogic s now msToDate write
  { state := r.state, appended := r.appended, ret := false }

/-- the toggle-timer IPC handler (lines 478-523).  When the interval is
set the handler inlines a stop: it clears the interval, timerStart,
timerDescription, timerDestination and the paused state and returns
running := false — no record line is appended in this branch.  Otherwise
it resumes from paused, or starts fresh. -/
def toggleTimer (s : TimerState) (description : String) (destination : Option Dest)
    (now : Int) : StepOut Bool :=
  let s :=
    match destination with
    | some d => { s with timerDestination := some d }
    | none => s
  if s.timerInterval then
    { state :=
        { timerInterval := false
          timerStart := none
          timerDescription := ""
          timerDestination := none
          timerPaused := false
          timerPausedElapsed := 0 }
      appended := []
      ret := false }
  else if s.timerPaused then
    { state := { s with timerStart := some (now - s.timerPausedElapsed)
                        timerPaused := false
                        timerPausedElapsed := 0
                        timerInterval := true }
      appended := []
      ret := true }
  else
    { state := { s with timerDescription := description
                        timerStart := some now
                        timerInterval := true }
      appended := []
      ret := true }

/-- the toggle-pause-timer IPC handler (lines 526-559).  The ret Bool is
the paused field of the returned object.  if (description) refreshes the
description only for a provided, non-empty string (the empty string is
falsy); if (destination) likewise stores only a provided destination. -/
def togglePauseTimer (s : TimerState) (description : Option String)
    (destination : Option Dest) (now : Int) : StepOut Bool :=
  let s :=
    match destination with
    | some d => { s with timerDestination := some d }
    | none => s
  let s :=
    match description with
    | some d => if d = "" then s else { s with timerDescription := d }
    | none => s
  if s.timerInterval then
    let s :=
      match s.timerStart with
      | some st => { s with timerPausedElapsed := s.timerPausedElapsed + (now - st) }
      | none => s
    { state := { s with timerInterval := false
                        timerStart := none
                        timerPaused := true }
      appended := []
      ret := true }
  else if s.timerPaused then
    { state := { s with timerStart := some (now - s.timerPausedElapsed)
                        timerPaused := false
                        timerPausedElapsed := 0
                        timerInterval := true }
      appended := []
      ret := false }
  else
    { state := s, appended := [], ret := false }

/-- The snapshot returned by the get-timer-state IPC handler. -/
structure TimerSnapshot where
  running : Bool
  paused : Bool
  elapsed : Option Int
  description : String
deriving DecidableEq

/-- the get-timer-state IPC handler (lines 561-567): pure read. -/
def getTimerState (s : TimerState) (now : Int) : TimerSnapshot :=
  match s.timerStart with
  | none =>
      { running := false
        paused := s.timerPaused
        elapsed := if s.timerPaused then some s.timerPausedElapsed else none
        description := s.timerDescription }
  | some st =>
      { running := true
        paused := false
        elapsed := some (now - st)
        description := s.timerDescription }

/-- One externally triggered engine operation with its arguments and the
instant at which it runs. -/
inductive Op where
  | start (description : String) (destination : Option Dest) (now : Int)
  | stop (now : Int) (write : WriteOutcome)
  | toggle (description : String) (destination : Option Dest) (now : Int)
  | togglePause (description : Option String) (destination : Option Dest) (now : Int)

/-- The state transition of one operation (its appended lines and return
value dropped). -/
def applyOp (f : Int → DateTime) (s : TimerState) : Op → TimerState
  | .start d dest t => (startTimer s d dest t).state
  | .stop t w => (stopTimer s t f w).state
  | .toggle d dest t => (toggleTimer s d dest t).state
  | .togglePause d dest t => (togglePauseTimer s d dest t).state

/-- States reachable from process launch by any sequence of engine
operations, in any environment. -/
inductive Reachable : TimerState → Prop where
  | init : Reachable initialState
  | step (s : TimerState) (f : Int → DateTime) (op : Op) :
      Reachable s → Reachable (applyOp f s op)

/-- A session running with a destination: Start("write report", Inbox) at
instant 0 from process launch. -/
def runningInboxState : TimerState :=
  (startTimer initialState "write report" (some Dest.inbox) 0).state

/-- The same session paused at instant 3000 (TogglePause while running). -/
def pausedInboxState : TimerState :=
  (togglePauseTimer runningInboxState none none 3000).state

/-- The same session resumed at instant 5000 (TogglePause while paused). -/
def resumedInboxState : TimerState :=
  (togglePauseTimer pausedInboxState none none 5000).state

/-- A session started from launch with an empty description and no
destination argument: Start("", omitted) at instant 0. -/
def runningBareState : TimerState :=
  (startTimer initialState "" none 0).state

/-- The state invariants the transitions maintain: timerStart is set
exactly when the interval is active, never while paused, and
timerPausedElapsed carries a value only while paused. -/
def Inv (s : TimerState) : Prop :=
  s.timerStart.isSome = s.timerInterval ∧
  (s.timerPaused = true → s.timerStart = none) ∧
  (s.timerPaused = false → s.timerPausedElapsed = 0)

/-- The total elapsed time of the session at an instant:
timerPausedElapsed plus the live segment now − timerStart when one is
running (the quantity get-timer-state and the tray title display). -/
def logicalElapsed (s : TimerState) (now : Int) : Int :=
  s.timerPausedElapsed +
    match s.timerStart with
    | some st => now - st
    | none => 0

theorem inv_initialState : Inv initialState := by
  refine ⟨rfl, ?_, ?_⟩ <;> intro h <;> rfl

theorem inv_startTimer (s : TimerState) (h : Inv s) (d : String)
    (dest : Option Dest) (t : Int) : Inv (startTimer s d dest t).state := by
  obtain ⟨ti, ts, td, tds, tp, tpe⟩ := s
  obtain ⟨h1, h2, h3⟩ := h
  cases ti <;> cases tp <;> cases ts <;> cases dest <;>
    simp_all [startTimer, Inv]

theorem stopTimer_state_eq (s : TimerState) (now : Int) (f : Int → DateTime)
    (w : WriteOutcome) : (stopTimer s now f w).state = initialState := rfl

theorem inv_stopTimer (s : TimerState) (now : Int) (f : Int → DateTime)
    (w : WriteOutcome) : Inv (stopTimer s now f w).state :=
  stopTimer_state_eq s now f w ▸ inv_initialState

theorem inv_toggleTimer (s : TimerState) (h : Inv s) (d : String)
    (dest : Option Dest) (t : Int) : Inv (toggleTimer s d dest t).state := by
  obtain ⟨ti, ts, td, tds, tp, tpe⟩ := s
  obtain ⟨h1, h2, h3⟩ := h
  cases ti <;> cases tp <;> cases ts <;> cases dest <;>
    simp_all [toggleTimer, Inv]

theorem inv_togglePauseTimer (s : TimerState) (h : Inv s) (d : Option String)
    (dest : Option Dest) (t : Int) : Inv (togglePauseTimer s d dest t).state := by
  obtain ⟨ti, ts, td, tds, tp, tpe⟩ := s
  obtain ⟨h1, h2, h3⟩ := h
  cases ti <;> cases tp <;> cases ts <;> cases dest <;> cases d <;>
    simp_all [togglePauseTimer, Inv] <;> split <;> simp_all

theorem inv_reachable (s : TimerState) (h : Reachable s) : Inv s := by
  induction h with
  | init => exact inv_initialState
  | step s f op hs ih =>
      cases op with
      | start d dest t => exact inv_startTimer s ih d dest t
      | stop t w => exact inv_stopTimer s t f w
      | toggle d dest t => exact inv_toggleTimer s ih d dest t
      | togglePause d dest t => exact inv_togglePauseTimer s ih d dest t

theorem reachable_runningInboxState : Reachable runningInboxState :=
  Reachable.step initialState msToDateUTC
    (Op.start "write report" (some Dest.inbox) 0) Reachable.init

theorem reachable_pausedInboxState : Reachable pausedInboxState :=
  Reachable.step runningInboxState msToDateUTC
    (Op.togglePause none none 3000) reachable_runningInboxState

theorem reachable_runningBareState : Reachable runningBareState :=
  Reachable.step initialState msToDateUTC (Op.start "" none 0) Reachable.init

/-- C1: on the concrete Running state with destination Inbox, toggleTimer
resets the state exactly as stopTimer does and returns running := false,
but appends no record line, while stopTimer on the same state appends the
session record — the Running branch of the toggle-timer handler skips the
recording its own comment announces. -/
theorem toggle_running_skips_recording :
    (toggleTimer runningInboxState "write report" none 5000).state =
      (stopTimer runningInboxState 5000 msToDateUTC WriteOutcome.ok).state ∧
    (toggleTimer runningInboxState "write report" none 5000).ret = false ∧
    (toggleTimer runningInboxState "write report" none 5000).appended = [] ∧
    (stopTimer runningInboxState 5000 msToDateUTC WriteOutcome.ok).appended =
      [(Dest.inbox, recordLine (msToDateUTC 0) (msToDateUTC 5000))] :=
  ⟨rfl, rfl, rfl, rfl⟩

/-- C2 counterexample: a reachable Paused session with a destination and
3000 ms of accumulated elapsed time, on which Stop appends nothing — the
had-start test of stopTimerLogic reads timerStart, which pausing cleared,
so Stop from Paused never invokes the recorder. -/
theorem stop_while_paused_records_nothing :
    Reachable pausedInboxState ∧
    pausedInboxState.timerInterval = false ∧
    pausedInboxState.timerPaused = true ∧
    pausedInboxState.timerDestination = some Dest.inbox ∧
    pausedInboxState.timerPausedElapsed = 3000 ∧
    (stopTimer pausedInboxState 5000 msToDateUTC WriteOutcome.ok).appended = [] ∧
    (stopTimer pausedInboxState 5000 msToDateUTC WriteOutcome.ok).ret = false :=
  ⟨reachable_pausedInboxState, rfl, rfl, rfl, by decide, rfl, rfl⟩

/-- C2 (amended): a successful Stop appends the session record exactly
when timerStart is currently set (phase Running) and a destination is
set, and then records that destination, the runningSince of the current
run and the stop instant; in every other state — Paused included — it
appends nothing. -/
theorem stop_records_iff_running_with_destination (s : TimerState) (now : Int)
    (f : Int → DateTime) :
    (stopTimer s now f WriteOutcome.ok).appended =
      match s.timerStart, s.timerDestination with
      | some recordedStart, some d => [(d, recordLine (f recordedStart) (f now))]
      | _, _ => [] := rfl

/-- C3: from every state and for every outcome of the recording write
(success, missing vault, path outside the vault, or filesystem error),
Stop resets the session fully to the launch state — interval cleared,
timerStart none, description empty, destination none, paused flag and
accumulated elapsed zeroed — and returns running := false; the write
outcome never reaches the caller. -/
theorem stop_always_resets (s : TimerState) (now : Int) (f : Int → DateTime)
    (w : WriteOutcome) :
    (stopTimer s now f w).state = initialState ∧ (stopTimer s now f w).ret = false :=
  ⟨stopTimer_state_eq s now f w, rfl⟩

/-- C4: Stop while Running after Start(description, DailyNote) at instant
t1, stopping at t2, appends exactly one line — the daily-note record
"- start - end" with both instants rendered through the YYYY-MM-DD
HH:MM:SS local formatting — and resets the session to the launch state. -/
theorem stop_after_start_appends_one_line (s : TimerState) (description : String)
    (t1 t2 : Int) (f : Int → DateTime)
    (hI : s.timerInterval = false) (hP : s.timerPaused = false) :
    (stopTimer (startTimer s description (some Dest.dailyNote) t1).state
        t2 f WriteOutcome.ok).appended
      = [(Dest.dailyNote, recordLine (f t1) (f t2))] ∧
    (stopTimer (startTimer s description (some Dest.dailyNote) t1).state
        t2 f WriteOutcome.ok).state = initialState := by
  obtain ⟨ti, ts, td, tds, tp, tpe⟩ := s
  simp only at hI hP
  subst hI hP
  exact ⟨rfl, rfl⟩

/-- C4 witness at the launch state with t1 = 3000 and t2 = 5000. -/
theorem stop_after_start_appends_one_line_witness :
    initialState.timerInterval = false ∧ initialState.timerPaused = false ∧
    ((stopTimer (startTimer initialState "note" (some Dest.dailyNote) 3000).state
        5000 msToDateUTC WriteOutcome.ok).appended
      = [(Dest.dailyNote, recordLine (msToDateUTC 3000) (msToDateUTC 5000))] ∧
     (stopTimer (startTimer initialState "note" (some Dest.dailyNote) 3000).state
        5000 msToDateUTC WriteOutcome.ok).state = initialState) :=
  ⟨rfl, rfl,
    stop_after_start_appends_one_line initialState "note" 3000 5000 msToDateUTC rfl rfl⟩

/-- C5: pausing at instant t and resuming at instant tr preserves the
displayed elapsed value exactly — the snapshot elapsed just after the
resume equals the snapshot elapsed just before the pause — and in the
concrete scenario start at 0, pause at 3000, resume at 5000, stop at 6000
the recorded window is 00:00:02 to 00:00:06, four seconds, not six. -/
theorem pause_resume_preserves_elapsed (s : TimerState) (h : Reachable s)
    (hI : s.timerInterval = true) (t tr : Int) :
    (getTimerState ((togglePauseTimer ((togglePauseTimer s none none t).state)
          none none tr).state) tr).elapsed
      = (getTimerState s t).elapsed ∧
    (stopTimer resumedInboxState 6000 msToDateUTC WriteOutcome.ok).appended
      = [(Dest.inbox, "- 1970-01-01 00:00:02 - 1970-01-01 00:00:06\n")] := by
  obtain ⟨h1, h2, h3⟩ := inv_reachable s h
  obtain ⟨ti, ts, td, tds, tp, tpe⟩ := s
  simp only at hI
  subst hI
  refine ⟨?_, by decide⟩
  cases ts with
  | none => simp at h1
  | some st =>
      cases tp with
      | true => simp at h2
      | false =>
          have htpe : tpe = 0 := h3 rfl
          subst htpe
          simp [togglePauseTimer, getTimerState]

/-- C5 witness: the pause-resume continuity applied to the running Inbox
session with pause at 3000 and resume at 5000. -/
theorem pause_resume_preserves_elapsed_witness :
    Reachable runningInboxState ∧ runningInboxState.timerInterval = true ∧
    ((getTimerState ((togglePauseTimer ((togglePauseTimer runningInboxState
          none none 3000).state) none none 5000).state) 5000).elapsed
        = (getTimerState runningInboxState 3000).elapsed ∧
     (stopTimer resumedInboxState 6000 msToDateUTC WriteOutcome.ok).appended
        = [(Dest.inbox, "- 1970-01-01 00:00:02 - 1970-01-01 00:00:06\n")]) :=
  ⟨reachable_runningInboxState, rfl,
    pause_resume_preserves_elapsed runningInboxState reachable_runningInboxState
      rfl 3000 5000⟩

/-- C6: in every reachable state, timerStart is set exactly when the tick
interval is active, and it is never set while the paused flag is true. -/
theorem runningSince_iff_running (s : TimerState) (h : Reachable s) :
    (s.timerStart.isSome = true ↔ s.timerInterval = true) ∧
    (s.timerPaused = true → s.timerStart = none) := by
  obtain ⟨h1, h2, h3⟩ := inv_reachable s h
  exact ⟨by rw [h1], h2⟩

/-- C6 witness at the reachable paused Inbox session. -/
theorem runningSince_iff_running_witness :
    Reachable pausedInboxState ∧
    ((pausedInboxState.timerStart.isSome = true ↔
        pausedInboxState.timerInterval = true) ∧
     (pausedInboxState.timerPaused = true → pausedInboxState.timerStart = none)) :=
  ⟨reachable_pausedInboxState,
    runningSince_iff_running pausedInboxState reachable_pausedInboxState⟩

/-- C7 counterexample: the reachable state after Start("", no destination)
from launch is Running — interval active, timerStart set — with the
destination still unset and the description empty, so unset destination
and description are not confined to Idle. -/
theorem running_with_unset_destination :
    Reachable runningBareState ∧
    runningBareState.timerInterval = true ∧
    runningBareState.timerStart = some 0 ∧
    runningBareState.timerDestination = none ∧
    runningBareState.timerDescription = "" :=
  ⟨reachable_runningBareState, rfl, rfl, rfl, rfl⟩

/-- C7 (amended): termination clears both fields — after Stop from every
state (Running, Paused or Idle, whatever the write outcome), and after
Toggle from any Running state, the description is empty and the
destination unset — but the converse direction fails: Start does not
require a destination, so Running states with unset destination and
empty description are reachable. -/
theorem termination_clears_destination_and_description (s : TimerState)
    (now t : Int) (f : Int → DateTime) (w : WriteOutcome) (d : String)
    (dest : Option Dest) :
    (stopTimer s now f w).state.timerDescription = "" ∧
    (stopTimer s now f w).state.timerDestination = none ∧
    (s.timerInterval = true →
      (toggleTimer s d dest t).state.timerDescription = "" ∧
      (toggleTimer s d dest t).state.timerDestination = none) := by
  refine ⟨rfl, rfl, ?_⟩
  intro hI
  obtain ⟨ti, ts, td, tds, tp, tpe⟩ := s
  simp only at hI
  subst hI
  cases dest <;> exact ⟨rfl, rfl⟩

/-- C7 amended witness: Stop clearing instantiated at the running Inbox
session and at the paused Inbox session, Toggle clearing at the running
one with its Running hypothesis discharged. -/
theorem termination_clears_destination_and_description_witness :
    runningInboxState.timerInterval = true ∧
    (stopTimer runningInboxState 5000 msToDateUTC WriteOutcome.ok).state.timerDescription = "" ∧
    (stopTimer runningInboxState 5000 msToDateUTC WriteOutcome.ok).state.timerDestination = none ∧
    (stopTimer pausedInboxState 5000 msToDateUTC WriteOutcome.ok).state.timerDescription = "" ∧
    (stopTimer pausedInboxState 5000 msToDateUTC WriteOutcome.ok).state.timerDestination = none ∧
    (toggleTimer runningInboxState "y" none 5000).state.timerDescription = "" ∧
    (toggleTimer runningInboxState "y" none 5000).state.timerDestination = none :=
  ⟨rfl,
    (termination_clears_destination_and_description runningInboxState
      5000 5000 msToDateUTC WriteOutcome.ok "y" none).1,
    (termination_clears_destination_and_description runningInboxState
      5000 5000 msToDateUTC WriteOutcome.ok "y" none).2.1,
    (termination_clears_destination_and_description pausedInboxState
      5000 5000 msToDateUTC WriteOutcome.ok "y" none).1,
    (termination_clears_destination_and_description pausedInboxState
      5000 5000 msToDateUTC WriteOutcome.ok "y" none).2.1,
    ((termination_clears_destination_and_description runningInboxState
      5000 5000 msToDateUTC WriteOutcome.ok "y" none).2.2 rfl).1,
    ((termination_clears_destination_and_description runningInboxState
      5000 5000 msToDateUTC WriteOutcome.ok "y" none).2.2 rfl).2⟩

/-- C8: Start invoked while the interval is active returns running := true,
appends nothing, and leaves every field of the state unchanged, whatever
arguments are given. -/
theorem start_while_running_noop (s : TimerState) (description : String)
    (destination : Option Dest) (now : Int) (h : s.timerInterval = true) :
    startTimer s description destination now =
      { state := s, appended := [], ret := true } := by
  simp [startTimer, h]

/-- C8 witness at the running Inbox session with fresh arguments. -/
theorem start_while_running_noop_witness :
    runningInboxState.timerInterval = true ∧
    startTimer runningInboxState "other" (some Dest.dailyNote) 9000 =
      { state := runningInboxState, appended := [], ret := true } :=
  ⟨rfl, start_while_running_noop runningInboxState "other" (some Dest.dailyNote) 9000 rfl⟩

/-- C9 counterexample: within one session (no Stop), pausing at 3000 puts
3000 into timerPausedElapsed and the TogglePause resume at 5000 resets it
to 0 — a strict decrease, and a reset to zero that is not a fresh Start
from Idle. -/
theorem pausedElapsed_reset_on_resume :
    Reachable pausedInboxState ∧
    pausedInboxState.timerPausedElapsed = 3000 ∧
    resumedInboxState = (togglePauseTimer pausedInboxState none none 5000).state ∧
    resumedInboxState.timerPausedElapsed = 0 ∧
    resumedInboxState.timerInterval = true :=
  ⟨reachable_pausedInboxState, by decide, rfl, rfl, rfl⟩

/-- C9 (amended): the monotone quantity is the logical elapsed time
timerPausedElapsed + (now − timerStart while running): every Start and
TogglePause transition preserves it at the transition instant, it is
non-decreasing in the instant itself, and a fresh Start from a reachable
Idle state begins it at zero; timerPausedElapsed alone is zeroed on every
resume, its value folding into timerStart. -/
theorem logical_elapsed_monotone :
    (∀ (s : TimerState), Reachable s → ∀ (d : String) (dest : Option Dest) (t : Int),
        logicalElapsed (startTimer s d dest t).state t = logicalElapsed s t) ∧
    (∀ (s : TimerState), Reachable s →
        ∀ (d : Option String) (dest : Option Dest) (t : Int),
        logicalElapsed (togglePauseTimer s d dest t).state t = logicalElapsed s t) ∧
    (∀ (s : TimerState) (t1 t2 : Int), t1 ≤ t2 →
        logicalElapsed s t1 ≤ logicalElapsed s t2) ∧
    (∀ (s : TimerState), Reachable s → s.timerInterval = false →
        s.timerPaused = false →
        ∀ (d : String) (dest : Option Dest) (t : Int),
          logicalElapsed (startTimer s d dest t).state t = 0) := by
  refine ⟨?_, ?_, ?_, ?_⟩
  · intro s hr d dest t
    obtain ⟨h1, h2, h3⟩ := inv_reachable s hr
    obtain ⟨ti, ts, td, tds, tp, tpe⟩ := s
    cases ti <;> cases tp <;> cases ts <;> cases dest <;>
      simp_all [startTimer, logicalElapsed]
  · intro s hr d dest t
    obtain ⟨h1, h2, h3⟩ := inv_reachable s hr
    obtain ⟨ti, ts, td, tds, tp, tpe⟩ := s
    rcases d with _ | d
    · cases ti <;> cases tp <;> cases ts <;> cases dest <;>
        simp_all [togglePauseTimer, logicalElapsed]
    · rcases eq_or_ne d "" with hd | hd <;>
        cases ti <;> cases tp <;> cases ts <;> cases dest <;>
          simp_all [togglePauseTimer, logicalElapsed]
  · intro s t1 t2 h12
    obtain ⟨ti, ts, td, tds, tp, tpe⟩ := s
    cases ts
    · simp [logicalElapsed]
    · simp only [logicalElapsed]
      omega
  · intro s hr hI hP d dest t
    obtain ⟨h1, h2, h3⟩ := inv_reachable s hr
    obtain ⟨ti, ts, td, tds, tp, tpe⟩ := s
    simp only at hI hP
    subst hI hP
    have htpe : tpe = 0 := h3 rfl
    subst htpe
    cases ts with
    | none => cases dest <;> simp [startTimer, logicalElapsed]
    | some st => simp at h1

/-- C9 amended witness: the fresh-start branch applied at the launch
state. -/
theorem logical_elapsed_monotone_witness :
    logicalElapsed (startTimer initialState "x" none 7000).state 7000 = 0 :=
  logical_elapsed_monotone.2.2.2 initialState Reachable.init rfl rfl "x" none 7000

/-- C10: TogglePause invoked in the Idle phase with arguments returns
paused := false and stays Idle (no interval, not paused, timerStart
untouched), yet stores the provided non-empty description and the
provided destination, and a subsequent Start that omits the destination
runs with the destination the Idle-phase TogglePause stored. -/
theorem togglePause_idle_stores_arguments (s : TimerState) (d : String)
    (dst : Dest) (t : Int) (d2 : String) (t2 : Int)
    (hI : s.timerInterval = false) (hP : s.timerPaused = false) (hd : d ≠ "") :
    (togglePauseTimer s (some d) (some dst) t).ret = false ∧
    (togglePauseTimer s (some d) (some dst) t).state.timerInterval = false ∧
    (togglePauseTimer s (some d) (some dst) t).state.timerPaused = false ∧
    (togglePauseTimer s (some d) (some dst) t).state.timerStart = s.timerStart ∧
    (togglePauseTimer s (some d) (some dst) t).state.timerDescription = d ∧
    (togglePauseTimer s (some d) (some dst) t).state.timerDestination = some dst ∧
    (startTimer ((togglePauseTimer s (some d) (some dst) t).state)
        d2 none t2).state.timerDestination = some dst := by
  obtain ⟨ti, ts, td, tds, tp, tpe⟩ := s
  simp only at hI hP
  subst hI hP
  simp [togglePauseTimer, startTimer, hd]

/-- C10 witness at the launch state with description "report" and
destination Inbox stored by the Idle-phase TogglePause. -/
theorem togglePause_idle_stores_arguments_witness :
    initialState.timerInterval = false ∧ initialState.timerPaused = false ∧
    "report" ≠ "" ∧
    ((togglePauseTimer initialState (some "report") (some Dest.inbox) 1000).ret = false ∧
     (togglePauseTimer initialState (some "report") (some Dest.inbox) 1000).state.timerInterval = false ∧
     (togglePauseTimer initialState (some "report") (some Dest.inbox) 1000).state.timerPaused = false ∧
     (togglePauseTimer initialState (some "report") (some Dest.inbox) 1000).state.timerStart = initialState.timerStart ∧
     (togglePauseTimer initialState (some "report") (some Dest.inbox) 1000).state.timerDescription = "report" ∧
     (togglePauseTimer initialState (some "report") (some Dest.inbox) 1000).state.timerDestination = some Dest.inbox ∧
     (startTimer ((togglePauseTimer initialState (some "report") (some Dest.inbox) 1000).state)
        "" none 2000).state.timerDestination = some Dest.inbox) :=
  ⟨rfl, rfl, by decide,
    togglePause_idle_stores_arguments initialState "report" Dest.inbox 1000 "" 2000
      rfl rfl (by decide)⟩

end OpenCapture
